import Mathlib

/-!
Shallow embedding of the `rust_elm327` OBD-II PID decode core.

Sources embedded:
* `src/elm327/decoder.rs` — the pure decode functions and the decoded enums;
* `src/elm327/pids.rs` — the per-PID descriptor metadata (mode/pid numbers,
  declared bounds, bound decode operation) for the descriptors the claims
  mention, plus the full list of registered (mode, pid) pairs.

Modelling conventions:
* Rust `u8`/`u16`/`u32` inputs become `Nat` together with an explicit bound
  (`input < 2 ^ 8` etc.) in the theorems; the Rust arithmetic here never
  overflows its type, so no `% 2 ^ w` reduction is needed inside the
  definitions (e.g. `((input >> 8) * 256) + (input & 0xff)` on a `u16` is at
  most `0xffff`).
* Rust `f64` results become `ℚ`: every decode formula is a rational function
  of the input bytes, and the claims under scrutiny are exact identities and
  order comparisons of those formulas.
* The type aliases `PidLen` and `ModLen` come from `src/elm327/types.rs`,
  which is not among the sources. Modelled from the spec: PID numbers and
  mode numbers are plain nonnegative integers, so both aliases are `Nat`.
-/

namespace Elm327

/-- `FuelSystem` enum from `decoder.rs` (source spelling kept, incl. `Unknow`). -/
inductive FuelSystem where
  | MotorOff
  | OpenLoopInsufficientEngineTemperature
  | ClosedLoopUsingOxygenSensorFeedback
  | OpenLoopEngineLoadOrFuelCutDueToDeceleration
  | OpenLoopSystemFailure
  | ClosedLoopFaultFeedbackSystem
  | Unknow
  deriving DecidableEq, Repr

/-- `AirStatus` enum from `decoder.rs`. -/
inductive AirStatus where
  | Upstream
  | Downstream
  | FromTheOutsideAtmosphereOrOff
  | PumpCommandedOnForDiagnostics
  | Unknow
  deriving DecidableEq, Repr

/-- `ObdStandard` enum from `decoder.rs` (source spelling kept, incl.
`NotAvailableForAssignement`); the `Value` payload is the `u8` modelled as `Nat`. -/
inductive ObdStandard where
  | Obd2CARB | ObdEPA | Obd1and2 | Obd1 | NotObdCompliant | Eobd | EobdAndObd2
  | EobdAndObd | EobdAndObd2AndObd | Jobd | JobdAndObd2 | JobdAndEobd
  | JobdAndEobdAndObd2 | Emd | EmdPlus | HdObdC | HdObd | WwhObd | HdEobd1
  | HdEobd1N | HdEobd2 | HdEobd2N | ObdBr1 | ObdBr2 | Kobd | Iobd1 | Iobd2
  | HdEobd6 | NotAvailableForAssignement | Reserved | Unknow
  | Value (b : Nat)
  deriving DecidableEq, Repr

/-- `State` enum from `decoder.rs`. -/
inductive State where
  | On
  | Off
  | Unknow
  deriving DecidableEq, Repr

/-- `decode_celsius` from `decoder.rs`: `encoded as i16 - 40`. -/
def decode_celsius (encoded : Nat) : Int :=
  (encoded : Int) - 40

/-- `decode_available_pids` from `decoder.rs`: `base = 2u32.pow(31)`; for
`offset` in `0..=31`, if `base >> offset & input != 0` push
`offset + 1 + 32 * pid_offset`. The growing `Vec` is a `List` built by a
left fold that appends on each set bit, mirroring `push`. -/
def decode_available_pids (input : Nat) (pid_offset : Nat) : List Nat :=
  (List.range 32).foldl
    (fun acc offset =>
      if (2 ^ 31 >>> offset) &&& input ≠ 0 then acc ++ [offset + 1 + 32 * pid_offset]
      else acc)
    []

/-- `interpret_one_byte_fuel` from `decoder.rs`. -/
def interpret_one_byte_fuel (b : Nat) : FuelSystem :=
  match b with
  | 0 => .MotorOff
  | 1 => .OpenLoopInsufficientEngineTemperature
  | 2 => .ClosedLoopUsingOxygenSensorFeedback
  | 4 => .OpenLoopEngineLoadOrFuelCutDueToDeceleration
  | 8 => .OpenLoopSystemFailure
  | 16 => .ClosedLoopFaultFeedbackSystem
  | _ => .Unknow

/-- `decode_fuel_system` from `decoder.rs`: the first component decodes
`input & 0xff`, the second decodes `input >> 8`. -/
def decode_fuel_system (input : Nat) : FuelSystem × FuelSystem :=
  (interpret_one_byte_fuel (input &&& 0xff), interpret_one_byte_fuel (input >>> 8))

/-- `decode_timing_advance` from `decoder.rs`: `input / 2.0 - 64.0`. -/
def decode_timing_advance (input : Nat) : ℚ :=
  (input : ℚ) / 2 - 64

/-- `decode_rpm` from `decoder.rs`: `(((input>>8)*256) + (input&0xff)) / 4.0`. -/
def decode_rpm (input : Nat) : ℚ :=
  ((((input >>> 8) * 256) + (input &&& 0xff) : Nat) : ℚ) / 4

/-- `decode_maf` from `decoder.rs`: textually the same formula as `decode_rpm`. -/
def decode_maf (input : Nat) : ℚ :=
  ((((input >>> 8) * 256) + (input &&& 0xff) : Nat) : ℚ) / 4

/-- `decode_percent` from `decoder.rs`: `input / 2.55`. -/
def decode_percent (input : Nat) : ℚ :=
  (input : ℚ) / 2.55

/-- `decode_fuel_trim` from `decoder.rs`: `input / 1.28 - 100.0`. -/
def decode_fuel_trim (input : Nat) : ℚ :=
  (input : ℚ) / 1.28 - 100

/-- `decode_air_status` from `decoder.rs`. -/
def decode_air_status (input : Nat) : AirStatus :=
  match input with
  | 0x01 => .Upstream
  | 0x02 => .Downstream
  | 0x04 => .FromTheOutsideAtmosphereOrOff
  | 0x08 => .PumpCommandedOnForDiagnostics
  | _ => .Unknow

/-- `decode_oxygen_sensor` from `decoder.rs`: `a = input >> 8`,
`b = input & 0xff`; returns `(a / 200, if b ≠ 255 then 100*b/128 - 100 else 0)`.
The source compares the already-converted `f64` against `255.0`; on byte
values that comparison coincides with the integer comparison modelled here. -/
def decode_oxygen_sensor (input : Nat) : ℚ × ℚ :=
  let a : ℚ := ((input >>> 8 : Nat) : ℚ)
  let b : ℚ := ((input &&& 0xff : Nat) : ℚ)
  (a / 200, if b ≠ 255 then 100 * b / 128 - 100 else 0)

/-- `decode_obd_standard` from `decoder.rs`. The Rust match is exhaustive over
`u8`; the trailing `.Value input` case only covers `Nat` inputs ≥ 256, which
are outside the `u8` domain (every theorem below restricts to bytes). -/
def decode_obd_standard (input : Nat) : ObdStandard :=
  match input with
  | 1 => .Obd2CARB
  | 2 => .ObdEPA
  | 3 => .Obd1and2
  | 4 => .Obd1
  | 5 => .NotObdCompliant
  | 6 => .Eobd
  | 7 => .EobdAndObd2
  | 8 => .EobdAndObd
  | 9 => .EobdAndObd2AndObd
  | 10 => .Jobd
  | 11 => .JobdAndObd2
  | 12 => .JobdAndEobd
  | 13 => .JobdAndEobdAndObd2
  | 17 => .Emd
  | 18 => .EmdPlus
  | 19 => .HdObdC
  | 20 => .HdObd
  | 21 => .WwhObd
  | 23 => .HdEobd1
  | 24 => .HdEobd1N
  | 25 => .HdEobd2
  | 26 => .HdEobd2N
  | 28 => .ObdBr1
  | 29 => .ObdBr2
  | 30 => .Kobd
  | 31 => .Iobd1
  | 32 => .Iobd2
  | 33 => .HdEobd6
  | 0 => .Unknow
  | n =>
    if (14 ≤ n ∧ n ≤ 16) ∨ n = 22 ∨ n = 27 ∨ (34 ≤ n ∧ n ≤ 250) then .Reserved
    else if 251 ≤ n ∧ n ≤ 255 then .NotAvailableForAssignement
    else .Value n

/-- `decode_auxiliary_input_status` from `decoder.rs`: match on `input >> 7`. -/
def decode_auxiliary_input_status (input : Nat) : State :=
  match input >>> 7 with
  | 0 => .Off
  | 1 => .On
  | _ => .Unknow

/-- `decode_seconds` from `decoder.rs`: `256*(input>>8) + (input&0xff)`. -/
def decode_seconds (input : Nat) : Nat :=
  256 * (input >>> 8) + (input &&& 0xff)

/-! Descriptor metadata from `pids.rs` for the descriptors the claims single
out. Each Rust `impl Pid for X` contributes constant methods; they are
embedded as plain definitions under the descriptor's namespace. -/

/-- `MAFSensor::mode_number` from `pids.rs`. -/
def MAFSensor.mode_number : Nat := 0x01

/-- `MAFSensor::pid_number` from `pids.rs`. -/
def MAFSensor.pid_number : Nat := 0x10

/-- `MAFSensor::min` from `pids.rs`: `Some(0.0)`. -/
def MAFSensor.min : Option ℚ := some 0

/-- `MAFSensor::max` from `pids.rs`: `Some(655.35)`. -/
def MAFSensor.max : Option ℚ := some 655.35

/-- `MAFSensor::interpret_result` from `pids.rs`: `decode_maf(input)`. -/
def MAFSensor.interpret_result (input : Nat) : ℚ := decode_maf input

/-- `LongTermFuelTrim1::mode_number` from `pids.rs`. -/
def LongTermFuelTrim1.mode_number : Nat := 0x01

/-- `LongTermFuelTrim1::pid_number` from `pids.rs`. -/
def LongTermFuelTrim1.pid_number : Nat := 0x07

/-- `LongTermFuelTrim2::mode_number` from `pids.rs`. -/
def LongTermFuelTrim2.mode_number : Nat := 0x01

/-- `LongTermFuelTrim2::pid_number` from `pids.rs`: also `0x07`, the same
value as `LongTermFuelTrim1::pid_number`. -/
def LongTermFuelTrim2.pid_number : Nat := 0x07

/-- The (mode_number, pid_number) pair of every descriptor defined in
`pids.rs`, in source order: AvailablePids20, StatusSinceDTC, FreezeDTC,
FuelSystemStatus, EngineLoad, EngineCoolantTemperature, ShortTermFuelTrim1,
LongTermFuelTrim1, ShortTermFuelTrim2, LongTermFuelTrim2, FuelPressure,
IntakeManifoldAbsolutePressure, EngineSpeed, VehicleSpeed, TimingAdvance,
IntakeAirTemperature, MAFSensor, ThrottlePosition, CommendedSecondaryAirStatus,
OxygenSensorPresent, OxygenSensor1–8, ObdStandardForThisVehicle,
OxygenSensorPresent4Banks, AuxiliaryInputStatus, RunTimeSinceStart,
AvailablePids40, DistanceWithMIL, FuelRailPressure, FuelRailGaugePressure,
OxygenSensorLambda1–8, CommandedEGR, EGRError, CommandedEvaporativePurge,
FuelTankLevelInput. -/
def registry_pairs : List (Nat × Nat) :=
  [(0x01, 0x00), (0x01, 0x01), (0x01, 0x02), (0x01, 0x03), (0x01, 0x04),
   (0x01, 0x05), (0x01, 0x06), (0x01, 0x07), (0x01, 0x08), (0x01, 0x07),
   (0x01, 0x0a), (0x01, 0x0b), (0x01, 0x0c), (0x01, 0x0d), (0x01, 0x0e),
   (0x01, 0x0f), (0x01, 0x10), (0x01, 0x11), (0x01, 0x12), (0x01, 0x13),
   (0x01, 0x14), (0x01, 0x15), (0x01, 0x16), (0x01, 0x17), (0x01, 0x18),
   (0x01, 0x19), (0x01, 0x1a), (0x01, 0x1b), (0x01, 0x1c), (0x01, 0x1d),
   (0x01, 0x1e), (0x01, 0x1f), (0x01, 0x20), (0x01, 0x21), (0x01, 0x22),
   (0x01, 0x23), (0x01, 0x24), (0x01, 0x25), (0x01, 0x26), (0x01, 0x27),
   (0x01, 0x28), (0x01, 0x29), (0x01, 0x2a), (0x01, 0x2b), (0x01, 0x2c),
   (0x01, 0x2d), (0x01, 0x2e), (0x01, 0x2f)]

/-! Helper lemmas shared by the claim theorems. -/

/-- A left fold that conditionally appends one mapped element per iteration
(the `Vec::push` loop shape) is the filter-then-map of the iteration list. -/
lemma foldl_ite_append (p : Nat → Prop) [DecidablePred p] (f : Nat → Nat) :
    ∀ (l acc : List Nat),
      List.foldl (fun a x => if p x then a ++ [f x] else a) acc l
        = acc ++ (l.filter (fun x => decide (p x))).map f := by
  intro l
  induction l with
  | nil => intro acc; simp
  | cons x xs ih =>
    intro acc
    by_cases h : p x
    · simp [h, ih, List.append_assoc]
    · simp [h, ih]

/-- The loop guard `base >> offset & input != 0` of `decode_available_pids`
tests bit `31 - offset` of the input (MSB-first iteration). -/
lemma shift_mask_testBit (input off : Nat) (hoff : off ≤ 31) :
    decide ((2 ^ 31 >>> off) &&& input ≠ 0) = input.testBit (31 - off) := by
  have hpow : (2 : Nat) ^ 31 >>> off = 2 ^ (31 - off) := by
    rw [Nat.shiftRight_eq_div_pow, Nat.pow_div hoff (by norm_num)]
  rw [hpow, Nat.two_pow_and]
  cases h : input.testBit (31 - off) <;> simp [h, Nat.ne_of_gt (Nat.two_pow_pos (31 - off))]

/-- Closed form of `decode_available_pids`: the set bits of the input, read
MSB-first, filtered out of offsets 0..31 and renumbered. -/
lemma decode_available_pids_eq_filter (input block_base : Nat) :
    decode_available_pids input block_base
      = ((List.range 32).filter (fun off => input.testBit (31 - off))).map
          (fun off => off + 1 + 32 * block_base) := by
  unfold decode_available_pids
  rw [foldl_ite_append (fun off => (2 ^ 31 >>> off) &&& input ≠ 0)
        (fun off => off + 1 + 32 * block_base) (List.range 32) []]
  rw [List.filter_congr (fun x hx => shift_mask_testBit input x
        (by simpa using Nat.lt_succ_iff.mp (by simpa [List.mem_range] using hx)))]
  simp

/-- Masking with `0xff` is reduction modulo 256. -/
lemma and_0xff_eq_mod (n : Nat) : n &&& 0xff = n % 256 := by
  have h : (0xff : Nat) = 2 ^ 8 - 1 := by norm_num
  rw [h, Nat.and_pow_two_sub_one_eq_mod]

/-- Shifting right by 8 is division by 256. -/
lemma shiftRight_8_eq_div (n : Nat) : n >>> 8 = n / 256 := by
  rw [Nat.shiftRight_eq_div_pow]

/-- `decode_fuel_system` in terms of the low and high bytes of its input. -/
lemma decode_fuel_system_bytes (input : Nat) :
    decode_fuel_system input
      = (interpret_one_byte_fuel (input % 256), interpret_one_byte_fuel (input / 256)) := by
  unfold decode_fuel_system
  rw [and_0xff_eq_mod, shiftRight_8_eq_div]

/-- Any input outside the six listed codes falls to the default arm of
`interpret_one_byte_fuel`. -/
lemma interpret_one_byte_fuel_unknown (b : Nat)
    (hb : b ∉ ([0, 1, 2, 4, 8, 16] : List Nat)) :
    interpret_one_byte_fuel b = .Unknow := by
  unfold interpret_one_byte_fuel
  split <;> simp_all

/-- Any input outside the four listed flags falls to the default arm of
`decode_air_status`. -/
lemma decode_air_status_unknown (b : Nat)
    (hb : b ∉ ([0x01, 0x02, 0x04, 0x08] : List Nat)) :
    decode_air_status b = .Unknow := by
  unfold decode_air_status
  split <;> simp_all

/-! Claim theorems. -/

/-- Claim C1: for every 32-bit input and every block_base,
`decode_available_pids` emits, for each set bit at MSB-first position
`offset` (0..31), the PID number `offset + 1 + 32 * block_base`, in source
bit order. -/
theorem decode_available_pids_unpacks_msb_bits (input : Nat) (hin : input < 2 ^ 32)
    (block_base : Nat) :
    decode_available_pids input block_base
      = ((List.range 32).filter (fun off => input.testBit (31 - off))).map
          (fun off => off + 1 + 32 * block_base) :=
  decode_available_pids_eq_filter input block_base

/-- Claim C1 witness: the spec's concrete example,
`decode_available_pids 0xBE1FA813 0`, yields the claimed ascending list. -/
theorem decode_available_pids_unpacks_msb_bits_witness :
    0xBE1FA813 < 2 ^ 32 ∧
      decode_available_pids 0xBE1FA813 0
        = [1, 3, 4, 5, 6, 7, 12, 13, 14, 15, 16, 17, 19, 21, 28, 31, 32] :=
  ⟨by norm_num,
   (decode_available_pids_unpacks_msb_bits 0xBE1FA813 (by norm_num) 0).trans (by decide)⟩

/-- Claim C5: the list returned by `decode_available_pids` is strictly
ascending, for every input and block_base. -/
theorem decode_available_pids_ascending (input block_base : Nat) :
    List.Pairwise (· < ·) (decode_available_pids input block_base) := by
  rw [decode_available_pids_eq_filter]
  exact List.Pairwise.map _ (fun a b h => by omega)
    ((List.pairwise_lt_range 32).filter _)

/-- Claim C4: `decode_rpm` and `decode_maf` agree on every 16-bit input, and
both compute `(256 * A + B) / 4` for high byte `A` and low byte `B`. -/
theorem decode_rpm_eq_decode_maf (input : Nat) (h : input < 2 ^ 16) :
    decode_rpm input = decode_maf input
      ∧ decode_rpm input = ((256 * (input / 256) + input % 256 : Nat) : ℚ) / 4 := by
  refine ⟨rfl, ?_⟩
  have e : (input >>> 8) * 256 + (input &&& 0xff) = 256 * (input / 256) + input % 256 := by
    rw [shiftRight_8_eq_div, and_0xff_eq_mod]
    ring
  unfold decode_rpm
  rw [e]

/-- Claim C4 witness at the concrete input 0x1A2B. -/
theorem decode_rpm_eq_decode_maf_witness :
    0x1A2B < 2 ^ 16 ∧ decode_rpm 0x1A2B = decode_maf 0x1A2B :=
  ⟨by norm_num, (decode_rpm_eq_decode_maf 0x1A2B (by norm_num)).1⟩

/-- Claim C2 (refuted; code bug): the MAFSensor descriptor declares
min 0 and max 655.35 but its bound decode operation returns 16383.75 on the
16-bit input 0xFFFF, far above the declared max — the `(256A+B)/4`
engine-speed formula was reused where the MAF range demands `(256A+B)/100`. -/
theorem mafsensor_exceeds_declared_max :
    MAFSensor.min = some 0 ∧ MAFSensor.max = some 655.35
      ∧ MAFSensor.interpret_result 0xFFFF = 16383.75 ∧ (655.35 : ℚ) < 16383.75 := by
  refine ⟨rfl, rfl, ?_, by norm_num⟩
  have h1 : (0xFFFF : Nat) >>> 8 = 255 := by decide
  have h2 : (0xFFFF : Nat) &&& 0xff = 255 := by decide
  unfold MAFSensor.interpret_result decode_maf
  rw [h1, h2]
  norm_num

/-- Claim C3 (refuted; code bug): `LongTermFuelTrim1` and `LongTermFuelTrim2`
return the same (mode, pid) pair (0x01, 0x07), so the registry's (mode, pid)
pairs are not unique. -/
theorem long_term_fuel_trim_duplicate_pid :
    LongTermFuelTrim1.mode_number = LongTermFuelTrim2.mode_number
      ∧ LongTermFuelTrim1.pid_number = LongTermFuelTrim2.pid_number
      ∧ LongTermFuelTrim1.pid_number = 0x07
      ∧ ¬ registry_pairs.Nodup :=
  ⟨rfl, rfl, rfl, by decide⟩

set_option maxRecDepth 8000 in
/-- Claim C6: `decode_obd_standard` maps every byte in 14–16, 22, 27 and
34–250 to Reserved, every byte in 251–255 to NotAvailableForAssignement
(source spelling), 0 to Unknow, and each of the 28 named bytes in 1–33 to
its named variant. -/
theorem decode_obd_standard_table :
    (∀ b < 256, ((14 ≤ b ∧ b ≤ 16) ∨ b = 22 ∨ b = 27 ∨ (34 ≤ b ∧ b ≤ 250)) →
        decode_obd_standard b = .Reserved)
      ∧ (∀ b < 256, 251 ≤ b → decode_obd_standard b = .NotAvailableForAssignement)
      ∧ decode_obd_standard 0 = .Unknow
      ∧ decode_obd_standard 1 = .Obd2CARB
      ∧ decode_obd_standard 2 = .ObdEPA
      ∧ decode_obd_standard 3 = .Obd1and2
      ∧ decode_obd_standard 4 = .Obd1
      ∧ decode_obd_standard 5 = .NotObdCompliant
      ∧ decode_obd_standard 6 = .Eobd
      ∧ decode_obd_standard 7 = .EobdAndObd2
      ∧ decode_obd_standard 8 = .EobdAndObd
      ∧ decode_obd_standard 9 = .EobdAndObd2AndObd
      ∧ decode_obd_standard 10 = .Jobd
      ∧ decode_obd_standard 11 = .JobdAndObd2
      ∧ decode_obd_standard 12 = .JobdAndEobd
      ∧ decode_obd_standard 13 = .JobdAndEobdAndObd2
      ∧ decode_obd_standard 17 = .Emd
      ∧ decode_obd_standard 18 = .EmdPlus
      ∧ decode_obd_standard 19 = .HdObdC
      ∧ decode_obd_standard 20 = .HdObd
      ∧ decode_obd_standard 21 = .WwhObd
      ∧ decode_obd_standard 23 = .HdEobd1
      ∧ decode_obd_standard 24 = .HdEobd1N
      ∧ decode_obd_standard 25 = .HdEobd2
      ∧ decode_obd_standard 26 = .HdEobd2N
      ∧ decode_obd_standard 28 = .ObdBr1
      ∧ decode_obd_standard 29 = .ObdBr2
      ∧ decode_obd_standard 30 = .Kobd
      ∧ decode_obd_standard 31 = .Iobd1
      ∧ decode_obd_standard 32 = .Iobd2
      ∧ decode_obd_standard 33 = .HdEobd6 := by
  decide

/-- Claim C6 witness: the two quantified conjuncts instantiated at 100 and 252. -/
theorem decode_obd_standard_table_witness :
    decode_obd_standard 100 = ObdStandard.Reserved
      ∧ decode_obd_standard 252 = ObdStandard.NotAvailableForAssignement :=
  ⟨decode_obd_standard_table.1 100 (by norm_num) (by norm_num),
   decode_obd_standard_table.2.1 252 (by norm_num) (by norm_num)⟩

/-- Claim C7: out-of-table content never fails. A fuel-system byte outside
0, 1, 2, 4, 8, 16 makes the corresponding component of `decode_fuel_system`
the Unknow variant, and an air-status byte outside 0x01, 0x02, 0x04, 0x08
makes `decode_air_status` return Unknow. -/
theorem unknown_content_decodes_to_unknow :
    (∀ input < 2 ^ 16,
        ((input % 256) ∉ ([0, 1, 2, 4, 8, 16] : List Nat) →
          (decode_fuel_system input).1 = .Unknow)
        ∧ ((input >>> 8) ∉ ([0, 1, 2, 4, 8, 16] : List Nat) →
          (decode_fuel_system input).2 = .Unknow))
      ∧ (∀ b < 256, b ∉ ([0x01, 0x02, 0x04, 0x08] : List Nat) →
          decode_air_status b = .Unknow) := by
  refine ⟨fun input hi => ⟨fun hmem => ?_, fun hmem => ?_⟩,
          fun b hb hmem => decode_air_status_unknown b hmem⟩
  · rw [decode_fuel_system_bytes]
    exact interpret_one_byte_fuel_unknown _ hmem
  · rw [decode_fuel_system_bytes]
    rw [shiftRight_8_eq_div] at hmem
    exact interpret_one_byte_fuel_unknown _ hmem

/-- Claim C7 witness: out-of-table byte 0x03 decodes to the Unknow sentinel
in both decoders. -/
theorem unknown_content_decodes_to_unknow_witness :
    (decode_fuel_system 0x0303).1 = FuelSystem.Unknow
      ∧ decode_air_status 0x03 = AirStatus.Unknow :=
  ⟨(unknown_content_decodes_to_unknow.1 0x0303 (by norm_num)).1 (by decide),
   unknown_content_decodes_to_unknow.2 0x03 (by norm_num) (by decide)⟩

/-- Claim C8: for every 16-bit input with high byte A and low byte B,
`decode_oxygen_sensor` returns `(A/200, t)` with `t = 100*B/128 - 100` when
`B ≠ 255` and `t = 0` when `B = 255`. -/
theorem decode_oxygen_sensor_formula (input : Nat) (h : input < 2 ^ 16) :
    decode_oxygen_sensor input
      = (((input / 256 : Nat) : ℚ) / 200,
         if input % 256 ≠ 255 then 100 * ((input % 256 : Nat) : ℚ) / 128 - 100 else 0) := by
  simp only [decode_oxygen_sensor, shiftRight_8_eq_div, and_0xff_eq_mod]
  by_cases hc : input % 256 = 255
  · simp [hc]
  · have hq : ((input % 256 : Nat) : ℚ) ≠ 255 := by exact_mod_cast hc
    simp [hc, hq]

/-- Claim C8 witness: input 0x7BFF exercises the `B = 255` branch and the
voltage formula (0x7B = 123). -/
theorem decode_oxygen_sensor_formula_witness :
    0x7BFF < 2 ^ 16 ∧ decode_oxygen_sensor 0x7BFF = (123 / 200, 0) :=
  ⟨by norm_num, (decode_oxygen_sensor_formula 0x7BFF (by norm_num)).trans (by norm_num)⟩

/-- Claim C9: under big-endian packing of the two wire bytes (first wire byte
`hi`, second wire byte `lo`, value `256*hi + lo`), `decode_fuel_system`
returns the tuple (second wire byte decoded, first wire byte decoded). -/
theorem decode_fuel_system_swaps_wire_bytes (hi lo : Nat) (hhi : hi < 256) (hlo : lo < 256) :
    decode_fuel_system (256 * hi + lo)
      = (interpret_one_byte_fuel lo, interpret_one_byte_fuel hi) := by
  have h1 : (256 * hi + lo) % 256 = lo := by omega
  have h2 : (256 * hi + lo) / 256 = hi := by omega
  rw [decode_fuel_system_bytes, h1, h2]

/-- Claim C9 witness at the wire bytes (2, 1). -/
theorem decode_fuel_system_swaps_wire_bytes_witness :
    (2 : Nat) < 256 ∧ (1 : Nat) < 256
      ∧ decode_fuel_system (256 * 2 + 1)
        = (FuelSystem.OpenLoopInsufficientEngineTemperature,
           FuelSystem.ClosedLoopUsingOxygenSensorFeedback) :=
  ⟨by norm_num, by norm_num,
   (decode_fuel_system_swaps_wire_bytes 2 1 (by norm_num) (by norm_num)).trans (by decide)⟩

set_option maxRecDepth 8000 in
/-- Claim C10: for every byte, `decode_auxiliary_input_status` returns On
when bit 7 is set and Off when it is clear; the Unknow fallback arm is
unreachable. -/
theorem decode_auxiliary_input_status_top_bit :
    ∀ b < 256, decode_auxiliary_input_status b = (if b.testBit 7 then State.On else State.Off)
      ∧ decode_auxiliary_input_status b ≠ State.Unknow := by
  decide

/-- Claim C10 witness at 0x80 (bit 7 set) and 0x7F (bit 7 clear). -/
theorem decode_auxiliary_input_status_top_bit_witness :
    decode_auxiliary_input_status 0x80 = State.On
      ∧ decode_auxiliary_input_status 0x7F ≠ State.Unknow :=
  ⟨((decode_auxiliary_input_status_top_bit 0x80 (by norm_num)).1).trans (by decide),
   (decode_auxiliary_input_status_top_bit 0x7F (by norm_num)).2⟩

end Elm327
